import Mathlib

/-!
Verification of the paku-iot OTA subsystem against its specification.

The definitions below are a shallow embedding of the Python sources
`src/stack/ota-service/ota_service.py` and `src/stack/collector/collector.py`:

* pure helper functions (`_percentage_match`, `_check_device_eligibility`)
  become Lean functions;
* the SQL tables touched by the endpoints become lists of rows inside an
  explicit `Db` state, and each endpoint/handler becomes a state-passing
  function; SQL `NOW()` becomes an explicit `now : Nat` argument supplied by
  the caller (timestamps are abstract ticks);
* Python dynamic values that flow through `json.loads` / `dict.get` / `in`
  are modelled by the inductive `PyVal`, with Python's truthiness, attribute
  and containment semantics made explicit (a raised-and-caught exception is
  an `Except.error`).

The cryptographic digest `int(hashlib.sha256(s.encode()).hexdigest(), 16)`
is library code external to the repository; it is abstracted as a parameter
`hashNat : String → Nat`, so every theorem quantifying over `hashNat` in
particular holds for the real SHA-256 interpretation.
-/

namespace Paku

/-- A Python/JSON value as it flows through the eligibility filter code:
strings, integers, booleans, lists, string-keyed dicts, and `None`. -/
inductive PyVal where
  | pstr : String → PyVal
  | pint : Int → PyVal
  | pbool : Bool → PyVal
  | plist : List PyVal → PyVal
  | pdict : List (String × PyVal) → PyVal
  | pnone : PyVal

/-- Python truthiness (`if not x`): empty containers, empty string, zero,
`False` and `None` are falsy. -/
def pyTruthy : PyVal → Bool
  | .pstr s => s ≠ ""
  | .pint n => n ≠ 0
  | .pbool b => b
  | .plist l => !l.isEmpty
  | .pdict l => !l.isEmpty
  | .pnone => false

/-- Python `d.get(k, default)`: only dicts have `.get`; on any other value
an `AttributeError` is raised (modelled as `Except.error`). -/
def pyGet (v : PyVal) (k : String) (dflt : PyVal) : Except Unit PyVal :=
  match v with
  | .pdict kvs =>
    match kvs.lookup k with
    | some x => .ok x
    | none => .ok dflt
  | _ => .error ()

/-- Substring test: does `hay` contain `needle` (Python `needle in hay` for
strings)? The empty needle is contained in every string. -/
def pySubstr (needle hay : String) : Bool :=
  (List.range (hay.length + 1)).any fun i => (hay.drop i).take needle.length == needle

/-- Python `s == x` for a string `s`: true only against an equal string
(strings never compare equal to ints, bools, lists, dicts or `None`). -/
def pyEqStr (s : String) : PyVal → Bool
  | .pstr t => s == t
  | _ => false

/-- Python `needle in x` for a string needle: substring test on strings,
element equality on lists, key membership on dicts, and a `TypeError`
(modelled as `Except.error`) on scalars and `None`. -/
def pyContainsStr (needle : String) : PyVal → Except Unit Bool
  | .pstr s => .ok (pySubstr needle s)
  | .plist xs => .ok (xs.any (pyEqStr needle))
  | .pdict kvs => .ok ((kvs.map Prod.fst).contains needle)
  | _ => .error ()

/-- The `target_filter` column as seen by `_check_device_eligibility`:
either JSON text that parses to a `PyVal` (or an already-decoded dict,
which behaves identically), or non-empty text on which `json.loads`
raises. SQL `NULL` is modelled by `Option.none` around this type. -/
inductive FilterPayload where
  | parsed : PyVal → FilterPayload
  | unparseable : FilterPayload

/-- Shallow embedding of `_percentage_match` (ota_service.py lines 881-903).
`hashNat device_id` stands for `int(hashlib.sha256(device_id.encode()).hexdigest(), 16)`. -/
def percentage_match (hashNat : String → Nat) (device_id : String) (percentage : Int) : Bool :=
  if percentage ≥ 100 then true
  else if percentage ≤ 0 then false
  else decide (((hashNat device_id % 100 : Nat) : Int) < percentage)

/-- Shallow embedding of `_check_device_eligibility` (ota_service.py lines
835-878), branch for branch:
* `"all"` and `"canary"` delegate to `_percentage_match`;
* `"specific"` returns `False` on a falsy filter, then inside `try:` parses
  the filter, takes `filter_dict.get("device_ids", [])` and evaluates
  `device_id in device_ids`; any exception yields `False`;
* `"group"` delegates to `_percentage_match` (the group-membership check is
  a `TODO` in the source and is not performed);
* any other mode returns `False`. -/
def check_device_eligibility (hashNat : String → Nat) (device_id target_type : String)
    (target_filter : Option FilterPayload) (rollout_percentage : Int) : Bool :=
  if target_type == "all" then percentage_match hashNat device_id rollout_percentage
  else if target_type == "specific" then
    match target_filter with
    | none => false
    | some .unparseable => false
    | some (.parsed v) =>
      if !pyTruthy v then false
      else
        match pyGet v "device_ids" (.plist []) with
        | .error _ => false
        | .ok ids =>
          match pyContainsStr device_id ids with
          | .error _ => false
          | .ok b => b
  else if target_type == "canary" then percentage_match hashNat device_id rollout_percentage
  else if target_type == "group" then percentage_match hashNat device_id rollout_percentage
  else false

/-- The update-status values admitted by the `UpdateStatus` pydantic model
(pattern `pending|downloading|downloaded|installing|success|failed|rolled_back`);
any other string is rejected by request validation before reaching the handler. -/
inductive UpdStatus where
  | pending
  | downloading
  | downloaded
  | installing
  | success
  | failed
  | rolled_back
deriving DecidableEq, Repr

/-- Python `str.lower()`, restricted to ASCII (the phase labels the
collector compares against are ASCII words). -/
def asciiLower (s : String) : String :=
  String.mk (s.data.map (fun c =>
    if 65 ≤ c.toNat && c.toNat ≤ 90 then Char.ofNat (c.toNat + 32) else c))

/-- Non-terminal statuses of an update attempt (spec section 3). -/
def nonTerminal : UpdStatus → Bool
  | .pending => true
  | .downloading => true
  | .downloaded => true
  | .installing => true
  | _ => false

/-- Row of the `devices` table (the columns the embedded operations touch). -/
structure DeviceRow where
  device_id : String
  device_model : String
  current_firmware_version : Option String
  last_seen : Nat
deriving DecidableEq, Repr

/-- Row of the `firmware_releases` table. -/
structure ReleaseRow where
  version : String
  device_model : String
  min_version : Option String
  file_path : String
  file_size : Nat
  checksum_sha256 : String
  changelog : Option String
  release_notes : Option String
  is_signed : Bool
  created_at : Nat
deriving DecidableEq, Repr

/-- Row of the `rollout_configurations` table. The stored `target_filter`
is the JSON written by `create_rollout` (or `NULL`). -/
structure RolloutRow where
  name : String
  firmware_version : String
  device_model : String
  target_type : String
  target_filter : Option FilterPayload
  rollout_percentage : Int
  is_active : Bool
  created_at : Nat

/-- Row of the `device_update_status` table: one UpdateAttempt record.
`id` is the serial primary key; `reported_at` is the column the SQL in
collector.py orders by (`ORDER BY reported_at DESC LIMIT 1`). The table
schema is not part of src/; following the spec (sections 3 and 4.2) the
column defaults to the insertion time, so inserts that omit it stamp the
call time. -/
structure AttemptRow where
  id : Nat
  device_id : String
  firmware_version : String
  status : UpdStatus
  error_message : Option String
  progress_percent : Option Int
  started_at : Option Nat
  completed_at : Option Nat
  reported_at : Nat
deriving DecidableEq, Repr

/-- The JSON body of an OTA MQTT message as read by `handle_ota_message`
(collector.py lines 272-380), restricted to the keys the handler accesses
via `payload.get`: `target_version`, `version`, `state`, `percent`,
`success`, `message`. `none` models an absent key (so that `get`'s default
applies). -/
structure OtaPayload where
  target_version : Option String
  version : Option String
  state : Option String
  percent : Option Int
  success : Option Bool
  message : Option String
deriving DecidableEq, Repr

/-- The JSON document stored in `ota_events.event_data`, by call site:
`check_firmware_update` stores the source version, `report_update_status`
stores the reported error on failure, the collector dumps the whole MQTT
payload, and the admin endpoints store summaries of the upload/rollout. -/
inductive EventData where
  | fromVersion : String → EventData
  | errorMsg : Option String → EventData
  | uploadInfo : String → Nat → String → EventData
  | rolloutInfo : String → String → Int → EventData
  | mqttPayload : OtaPayload → EventData
deriving DecidableEq, Repr

/-- Row of the append-only `ota_events` table. -/
structure EventRow where
  event_type : String
  device_id : Option String
  firmware_version : Option String
  event_data : Option EventData
deriving DecidableEq, Repr

/-- The persistent state the embedded endpoints operate on: the five SQL
tables plus the next serial id for `device_update_status`. Rows are kept in
insertion order. -/
structure Db where
  devices : List DeviceRow
  firmware_releases : List ReleaseRow
  rollout_configurations : List RolloutRow
  device_update_status : List AttemptRow
  ota_events : List EventRow
  next_id : Nat

/-- `ORDER BY key DESC LIMIT 1` over a list: the element with the greatest
key. Postgres leaves the order of ties unspecified; here the later row of
the list wins a tie. -/
def latestBy (f : A → Nat) : List A → Option A
  | [] => none
  | x :: xs =>
    match latestBy f xs with
    | none => some x
    | some a => if f a ≥ f x then some a else some x

/-- The catalog query of `check_firmware_update`: latest `firmware_releases`
row for a device model (`ORDER BY created_at DESC LIMIT 1`). -/
def latestRelease (db : Db) (device_model : String) : Option ReleaseRow :=
  latestBy (fun r => r.created_at)
    (db.firmware_releases.filter (fun r => r.device_model == device_model))

/-- The rollout query of `check_firmware_update`: most recently created
active `rollout_configurations` row for (version, model). -/
def latestActiveRollout (db : Db) (version device_model : String) : Option RolloutRow :=
  latestBy (fun r => r.created_at)
    (db.rollout_configurations.filter
      (fun r => r.firmware_version == version && r.device_model == device_model && r.is_active))

/-- The collector's current-attempt subselect: the `device_update_status`
row for a device with the greatest `reported_at`. -/
def latestAttempt (rows : List AttemptRow) (device_id : String) : Option AttemptRow :=
  latestBy (fun r => r.reported_at) (rows.filter (fun r => r.device_id == device_id))

/-- Number of non-terminal attempt rows a device currently has. -/
def countNonTerminal (rows : List AttemptRow) (device_id : String) : Nat :=
  (rows.filter (fun r => r.device_id == device_id && nonTerminal r.status)).length

/-- The collector's `UPDATE ... WHERE id = (SELECT id ... ORDER BY
reported_at DESC LIMIT 1)` pattern: apply `f` to the device's latest
attempt row (matched by primary key); if the subselect is empty the update
touches zero rows. -/
def updateLatest (rows : List AttemptRow) (device_id : String)
    (f : AttemptRow → AttemptRow) : List AttemptRow :=
  match latestAttempt rows device_id with
  | none => rows
  | some a => rows.map (fun r => if r.id == a.id then f r else r)

/-- Shallow embedding of `handle_ota_message` (collector.py lines 272-380).
`now` is the SQL `NOW()` of the transaction. Branches:

* `"status"` (acknowledgement): unconditionally inserts a fresh `pending`
  row with `started_at = reported_at = now`, then appends an
  `update_started` event carrying the payload dump;
* `"progress"`: maps `payload.get("state", "").lower()` to a status by
  string equality (`"installing"` to installing, `"verifying"` to
  downloaded, anything else downloading) and updates the device's latest
  row with that status and `payload.get("percent", 0)`;
* `"result"`: reads `payload.get("success", False)`, updates the latest row
  to `success`/`failed` (progress forced to 100 on success, error message
  recorded on failure, `completed_at` stamped), then appends an
  `update_completed`/`update_failed` event;
* any other type leaves the state unchanged. -/
def handle_ota_message (db : Db) (now : Nat) (device_id ota_type : String)
    (payload : OtaPayload) : Db :=
  let fw := payload.target_version.getD (payload.version.getD "unknown")
  if ota_type == "status" then
    let row : AttemptRow :=
      { id := db.next_id, device_id := device_id, firmware_version := fw,
        status := .pending, error_message := none, progress_percent := none,
        started_at := some now, completed_at := none, reported_at := now }
    let ev : EventRow :=
      { event_type := "update_started", device_id := some device_id,
        firmware_version := some fw, event_data := some (.mqttPayload payload) }
    { db with device_update_status := db.device_update_status ++ [row],
              ota_events := db.ota_events ++ [ev],
              next_id := db.next_id + 1 }
  else if ota_type == "progress" then
    let state := asciiLower (payload.state.getD "")
    let status : UpdStatus :=
      if state == "installing" then .installing
      else if state == "verifying" then .downloaded
      else .downloading
    { db with device_update_status :=
        updateLatest db.device_update_status device_id (fun r =>
          { r with status := status,
                   progress_percent := some (payload.percent.getD 0),
                   reported_at := now }) }
  else if ota_type == "result" then
    let succ := payload.success.getD false
    let finalStatus : UpdStatus := if succ then .success else .failed
    let err := if succ then none else payload.message
    let ev : EventRow :=
      { event_type := if succ then "update_completed" else "update_failed",
        device_id := some device_id, firmware_version := some fw,
        event_data := some (.mqttPayload payload) }
    { db with device_update_status :=
        updateLatest db.device_update_status device_id (fun r =>
          { r with status := finalStatus,
                   progress_percent := if succ then some 100 else r.progress_percent,
                   error_message := err,
                   completed_at := some now,
                   reported_at := now }),
              ota_events := db.ota_events ++ [ev] }
  else db

/-- The request body of `POST /api/device/{device_id}/update-status`, after
pydantic validation (`UpdateStatus` model). -/
structure UpdateStatusBody where
  device_id : String
  firmware_version : String
  status : UpdStatus
  error_message : Option String
  progress_percent : Option Int
deriving DecidableEq, Repr

/-- The `device_update_status` row inserted by `report_update_status`:
the reported status verbatim, `started_at` stamped only for `downloading`,
`completed_at` only for `success`/`failed`, `reported_at` by column
default. -/
def reportRow (db : Db) (now : Nat) (device_id : String)
    (body : UpdateStatusBody) : AttemptRow :=
  { id := db.next_id, device_id := device_id,
    firmware_version := body.firmware_version, status := body.status,
    error_message := body.error_message,
    progress_percent := body.progress_percent,
    started_at := if body.status == .downloading then some now else none,
    completed_at :=
      if body.status == .success || body.status == .failed then some now else none,
    reported_at := now }

/-- Shallow embedding of `report_update_status` (ota_service.py lines
369-439). Unconditionally inserts `reportRow`; on `success` additionally
updates the device's current firmware version and logs `update_completed`;
on `failed` logs `update_failed`. The handler then returns
`{"status": "ok"}` — it has no failure outcome other than storage errors. -/
def report_update_status (db : Db) (now : Nat) (device_id : String)
    (body : UpdateStatusBody) : Db :=
  let row : AttemptRow := reportRow db now device_id body
  let db1 : Db :=
    { db with device_update_status := db.device_update_status ++ [row],
              next_id := db.next_id + 1 }
  if body.status == .success then
    { db1 with
        devices := db1.devices.map (fun d =>
          if d.device_id == device_id then
            { d with current_firmware_version := some body.firmware_version,
                     last_seen := now }
          else d),
        ota_events := db1.ota_events ++
          [{ event_type := "update_completed", device_id := some device_id,
             firmware_version := some body.firmware_version, event_data := none }] }
  else if body.status == .failed then
    { db1 with ota_events := db1.ota_events ++
        [{ event_type := "update_failed", device_id := some device_id,
           firmware_version := some body.firmware_version,
           event_data := some (.errorMsg body.error_message) }] }
  else db1

/-- The device upsert at the top of `check_firmware_update` (ota_service.py
lines 208-220): `INSERT ... ON CONFLICT (device_id) DO UPDATE SET
current_firmware_version, last_seen` (the conflict branch does not touch
`device_model`). -/
def upsertDevice (db : Db) (now : Nat) (device_id device_model current_version : String) : Db :=
  if db.devices.any (fun d => d.device_id == device_id) then
    { db with devices := db.devices.map (fun d =>
        if d.device_id == device_id then
          { d with current_firmware_version := some current_version, last_seen := now }
        else d) }
  else
    { db with devices := db.devices ++
        [{ device_id := device_id, device_model := device_model,
           current_firmware_version := some current_version, last_seen := now }] }

/-- Response model of `GET /api/firmware/check`. -/
structure FirmwareCheckResponse where
  update_available : Bool
  current_version : Option String
  latest_version : Option String
  download_url : Option String
  file_size : Option Nat
  checksum_sha256 : Option String
  release_notes : Option String
deriving DecidableEq, Repr

/-- `FirmwareCheckResponse` with every optional field absent, as produced
by the model's defaults when a handler names only some fields. -/
def emptyCheckResponse : FirmwareCheckResponse :=
  { update_available := false, current_version := none, latest_version := none,
    download_url := none, file_size := none, checksum_sha256 := none,
    release_notes := none }

/-- Shallow embedding of `check_firmware_update` (ota_service.py lines
190-315): upsert the device; look up the latest release for the model (none
means no update); if the latest version equals the reported one, no update;
otherwise find the most recently created active rollout for (version,
model) (none means no update); check eligibility; if eligible, append an
`update_started` event and answer with the update offer. Returns the
response together with the resulting state. -/
def check_firmware_update (hashNat : String → Nat) (db : Db) (now : Nat)
    (device_id device_model current_version : String) :
    FirmwareCheckResponse × Db :=
  let db := upsertDevice db now device_id device_model current_version
  match latestRelease db device_model with
  | none =>
    ({ emptyCheckResponse with
         update_available := false
         current_version := some current_version }, db)
  | some rel =>
    if rel.version == current_version then
      ({ emptyCheckResponse with
           update_available := false
           current_version := some current_version
           latest_version := some rel.version }, db)
    else
      match latestActiveRollout db rel.version device_model with
      | none =>
        ({ emptyCheckResponse with
             update_available := false
             current_version := some current_version
             latest_version := some rel.version }, db)
      | some rollout =>
        if check_device_eligibility hashNat device_id rollout.target_type
            rollout.target_filter rollout.rollout_percentage then
          let db :=
            { db with ota_events := db.ota_events ++
                [{ event_type := "update_started"
                   device_id := some device_id
                   firmware_version := some rel.version
                   event_data := some (.fromVersion current_version) }] }
          ({ update_available := true
             current_version := some current_version
             latest_version := some rel.version
             download_url := some ("/api/firmware/download/" ++ rel.version)
             file_size := some rel.file_size
             checksum_sha256 := some rel.checksum_sha256
             release_notes := rel.release_notes }, db)
        else
          ({ emptyCheckResponse with
               update_available := false
               current_version := some current_version
               latest_version := some rel.version }, db)

/-- Python truthiness of the configured `settings.api_key`
(`Optional[str]`): unset or empty means no authentication is enforced. -/
def apiKeyTruthy : Option String → Bool
  | none => false
  | some s => s ≠ ""

/-- Shallow embedding of `verify_api_key` (ota_service.py lines 131-135):
returns `true` when the request passes, `false` when a 401 is raised. The
check fires only when a truthy key is configured and the `X-API-Key` header
(absent modelled as `none`) differs from it. -/
def verify_api_key (api_key x_api_key : Option String) : Bool :=
  !(apiKeyTruthy api_key && x_api_key != api_key)

/-- Insertion step of a descending sort by a `Nat` key. -/
def insertByDesc (f : A → Nat) (x : A) : List A → List A
  | [] => [x]
  | y :: ys => if f x ≥ f y then x :: y :: ys else y :: insertByDesc f x ys

/-- `ORDER BY key DESC`: insertion sort, descending by `f`. Postgres leaves
ties unspecified; here the earlier row of the list wins a tie. -/
def sortByDesc (f : A → Nat) : List A → List A
  | [] => []
  | x :: xs => insertByDesc f x (sortByDesc f xs)

/-- Shallow embedding of `upload_firmware` (ota_service.py lines 445-541).
The artifact bytes are streamed to disk outside the database; their length
and SHA-256 digest enter the metadata row, so they appear here as the
`file_size` and `checksum` arguments. The handler declares
`Depends(verify_api_key)`, so an authentication failure (`.error ()`,
the 401) occurs before any storage write. On success it inserts the
release row (file path `model_version.bin`, `created_by` 'admin') and a
`firmware_uploaded` event. -/
def upload_firmware (api_key x_api_key : Option String) (db : Db) (now : Nat)
    (version device_model : String) (min_version changelog release_notes : Option String)
    (is_signed : Bool) (file_size : Nat) (checksum : String) :
    Except Unit Db :=
  if !verify_api_key api_key x_api_key then .error ()
  else
    .ok { db with
            firmware_releases := db.firmware_releases ++
              [{ version := version
                 device_model := device_model
                 min_version := min_version
                 file_path := device_model ++ "_" ++ version ++ ".bin"
                 file_size := file_size
                 checksum_sha256 := checksum
                 changelog := changelog
                 release_notes := release_notes
                 is_signed := is_signed
                 created_at := now }]
            ota_events := db.ota_events ++
              [{ event_type := "firmware_uploaded"
                 device_id := none
                 firmware_version := some version
                 event_data := some (.uploadInfo device_model file_size checksum) }] }

/-- The request body of `POST /api/admin/rollout/create` (`RolloutConfig`
pydantic model); `target_filter` is an optional JSON object. -/
structure RolloutConfigBody where
  name : String
  firmware_version : String
  device_model : String
  target_type : String
  target_filter : Option PyVal
  rollout_percentage : Int
  is_active : Bool

/-- Shallow embedding of `create_rollout` (ota_service.py lines 597-652).
Authentication as in `upload_firmware`. The stored filter is
`json.dumps(rollout.target_filter) if rollout.target_filter else None`:
a missing or falsy filter (e.g. the empty object) is stored as SQL `NULL`,
anything else round-trips through JSON text. -/
def create_rollout (api_key x_api_key : Option String) (db : Db) (now : Nat)
    (rc : RolloutConfigBody) : Except Unit Db :=
  if !verify_api_key api_key x_api_key then .error ()
  else
    let storedFilter : Option FilterPayload :=
      match rc.target_filter with
      | some v => if pyTruthy v then some (.parsed v) else none
      | none => none
    .ok { db with
            rollout_configurations := db.rollout_configurations ++
              [{ name := rc.name
                 firmware_version := rc.firmware_version
                 device_model := rc.device_model
                 target_type := rc.target_type
                 target_filter := storedFilter
                 rollout_percentage := rc.rollout_percentage
                 is_active := rc.is_active
                 created_at := now }]
            ota_events := db.ota_events ++
              [{ event_type := "rollout_created"
                 device_id := none
                 firmware_version := some rc.firmware_version
                 event_data := some (.rolloutInfo rc.name rc.target_type rc.rollout_percentage) }] }

/-- Shallow embedding of `list_firmware_releases` (ota_service.py lines
544-594): the handler declares no authentication dependency, so the
configured key and request header — kept in the signature only to state
the authentication claims uniformly across admin endpoints — are unused.
Pure read: releases, optionally filtered by model, newest first, limited. -/
def list_firmware_releases (_api_key _x_api_key : Option String) (db : Db)
    (device_model : Option String) (limit : Nat) : Except Unit (List ReleaseRow) :=
  let rows :=
    match device_model with
    | some m => db.firmware_releases.filter (fun r => r.device_model == m)
    | none => db.firmware_releases
  .ok ((sortByDesc (fun r => r.created_at) rows).take limit)

/-- Shallow embedding of `list_devices` (ota_service.py lines 655-703):
also declares no authentication dependency (unused header as above). -/
def list_devices (_api_key _x_api_key : Option String) (db : Db)
    (device_model : Option String) (limit : Nat) : Except Unit (List DeviceRow) :=
  let rows :=
    match device_model with
    | some m => db.devices.filter (fun d => d.device_model == m)
    | none => db.devices
  .ok ((sortByDesc (fun d => d.last_seen) rows).take limit)

/-- Shallow embedding of `get_update_status` (ota_service.py lines
706-760): attempt listing, optional equality filters on device and
version, newest first by `reported_at`; declares no authentication
dependency (unused header as above). -/
def get_update_status (_api_key _x_api_key : Option String) (db : Db)
    (device_id firmware_version : Option String) (limit : Nat) :
    Except Unit (List AttemptRow) :=
  let rows := db.device_update_status.filter (fun r =>
    (match device_id with
     | some d => r.device_id == d
     | none => true) &&
    (match firmware_version with
     | some v => r.firmware_version == v
     | none => true))
  .ok ((sortByDesc (fun r => r.reported_at) rows).take limit)

/- ------------------------------------------------------------------
Concrete fixtures used by closed theorems (counterexamples and
witnesses). They correspond to the scenarios in spec section 8 and the
repository's own unit tests.
------------------------------------------------------------------ -/

/-- A concrete stand-in for the abstract hash parameter in closed
statements: every device hashes to bucket 0. -/
def zeroHash : String → Nat := fun _ => 0

/-- An empty database. -/
def emptyDb : Db :=
  { devices := []
    firmware_releases := []
    rollout_configurations := []
    device_update_status := []
    ota_events := []
    next_id := 0 }

/-- A pending attempt row for device `d1`, firmware `1.1.0`. -/
def pendingRow : AttemptRow :=
  { id := 0
    device_id := "d1"
    firmware_version := "1.1.0"
    status := .pending
    error_message := none
    progress_percent := none
    started_at := some 0
    completed_at := none
    reported_at := 0 }

/-- A terminal (`success`) attempt row for device `d1`. -/
def successRow : AttemptRow :=
  { pendingRow with status := .success, completed_at := some 0 }

/-- Database in which `d1` has exactly one non-terminal attempt. -/
def dbPending : Db := { emptyDb with device_update_status := [pendingRow], next_id := 1 }

/-- Database in which `d1`'s only (hence current) attempt is `success`. -/
def dbSuccess : Db := { emptyDb with device_update_status := [successRow], next_id := 1 }

/-- Database whose only attempt row belongs to another device. -/
def dbOther : Db :=
  { emptyDb with
      device_update_status := [{ pendingRow with device_id := "other" }]
      next_id := 1 }

/-- An OTA acknowledgement payload (`target_version` only). -/
def ackPayload : OtaPayload :=
  { target_version := some "1.1.0"
    version := none
    state := none
    percent := none
    success := none
    message := none }

/-- A progress payload whose phase label is the bare word `install`. -/
def installPayload : OtaPayload := { ackPayload with state := some "install", percent := some 50 }

/-- A progress payload whose phase label is the bare word `verify`. -/
def verifyPayload : OtaPayload := { ackPayload with state := some "verify", percent := some 80 }

/-- A failed-result payload. -/
def failPayload : OtaPayload :=
  { ackPayload with success := some false, message := some "checksum mismatch" }

/-- Catalog release `1.1.0` for model `esp32` (spec section 8, scenario 1). -/
def relEsp : ReleaseRow :=
  { version := "1.1.0"
    device_model := "esp32"
    min_version := none
    file_path := "esp32_1.1.0.bin"
    file_size := 1024
    checksum_sha256 := "abc123"
    changelog := none
    release_notes := some "Bug fixes"
    is_signed := false
    created_at := 0 }

/-- Active rollout of `1.1.0` to all `esp32` devices at 100%. -/
def roAll : RolloutRow :=
  { name := "r1"
    firmware_version := "1.1.0"
    device_model := "esp32"
    target_type := "all"
    target_filter := none
    rollout_percentage := 100
    is_active := true
    created_at := 0 }

/-- Database holding the catalog and rollout of spec scenario 1, with no
devices and no attempts yet. -/
def dbCatalog : Db :=
  { emptyDb with firmware_releases := [relEsp], rollout_configurations := [roAll] }

/-- A `downloading` status report for `d1` on firmware `1.1.0`. -/
def bodyDownloading : UpdateStatusBody :=
  { device_id := "d1"
    firmware_version := "1.1.0"
    status := .downloading
    error_message := none
    progress_percent := some 10 }

/- ------------------------------------------------------------------
Helper lemmas
------------------------------------------------------------------ -/

/-- Characterization of `_percentage_match`: true exactly on the boundary
rule or, for percentages strictly between the bounds, when the hash bucket
is below the percentage. -/
theorem percentage_match_iff (hashNat : String → Nat) (id : String) (pct : Int) :
    percentage_match hashNat id pct = true ↔
      100 ≤ pct ∨ (0 < pct ∧ ((hashNat id % 100 : Nat) : Int) < pct) := by
  unfold percentage_match
  by_cases h1 : pct ≥ 100
  · simp [h1]
    try omega
  · by_cases h2 : pct ≤ 0
    · simp [h1, h2]
      try omega
    · simp [h1, h2]
      try omega

/-- A selected latest row is a member of the list. -/
theorem latestBy_mem (f : A → Nat) (l : List A) (a : A)
    (h : latestBy f l = some a) : a ∈ l := by
  induction l with
  | nil => simp [latestBy] at h
  | cons x xs ih =>
    unfold latestBy at h
    cases hxs : latestBy f xs with
    | none =>
      rw [hxs] at h
      simp at h
      simp [h]
    | some b =>
      rw [hxs] at h
      by_cases hge : f b ≥ f x
      · simp [hge] at h
        subst h
        exact List.mem_cons_of_mem _ (ih hxs)
      · simp [hge] at h
        subst h
        exact List.mem_cons_self _ _

/-- Appending an element whose key dominates the list makes it the latest. -/
theorem latestBy_append_last (f : A → Nat) (l : List A) (x : A)
    (h : ∀ y ∈ l, f y ≤ f x) : latestBy f (l ++ [x]) = some x := by
  induction l with
  | nil => rfl
  | cons z zs ih =>
    have hz : f z ≤ f x := h z (by simp)
    have ih2 : latestBy f (zs ++ [x]) = some x :=
      ih (fun y hy => h y (by simp [hy]))
    show latestBy f (z :: (zs ++ [x])) = some x
    unfold latestBy
    rw [ih2]
    simp [hz]

/- ------------------------------------------------------------------
Claims about the Rollout Targeting Engine
------------------------------------------------------------------ -/

/-- C2: `PercentageMatch` is monotone in the percentage: for every device
identifier and all integers `p1 ≤ p2`, a device eligible at `p1` remains
eligible at `p2` (for every interpretation of the cryptographic hash). -/
theorem percentage_match_monotone (hashNat : String → Nat) (id : String)
    (p1 p2 : Int) (hle : p1 ≤ p2)
    (h1 : percentage_match hashNat id p1 = true) :
    percentage_match hashNat id p2 = true := by
  rw [percentage_match_iff] at h1 ⊢
  omega

/-- Witness for C2 at a concrete hash and percentages 50 ≤ 60. -/
theorem percentage_match_monotone_witness :
    percentage_match (fun _ => 37) "device-a" 60 = true :=
  percentage_match_monotone (fun _ => 37) "device-a" 50 60 (by decide) (by decide)

/-- C3: `_percentage_match` returns true iff `pct ≥ 100`, or `pct` is
strictly positive and the hash of the device id reduced modulo 100 is
strictly below `pct`; in particular `pct ≤ 0` always yields false. Being a
plain function of `(hashNat, id, pct)`, it is pure and deterministic. -/
theorem percentage_match_characterization (hashNat : String → Nat)
    (id : String) (pct : Int) :
    percentage_match hashNat id pct = true ↔
      100 ≤ pct ∨ (0 < pct ∧ ((hashNat id % 100 : Nat) : Int) < pct) :=
  percentage_match_iff hashNat id pct

/-- C6 (code bug): under targeting mode `group`, the source ignores the
policy's group-tag filter and the Device Registry metadata entirely
(`TODO: Implement group membership check`) and falls back to the
percentage gate alone: a device with no metadata, checked against a group
policy with no filter at 100%, is eligible — the repository's own test
(`test_check_device_eligibility_group`, Test 8) asserts the opposite. -/
theorem group_mode_ignores_group_filter :
    ∀ hashNat : String → Nat,
      check_device_eligibility hashNat "device8" "group" none 100 = true := by
  intro hashNat
  rfl

/-- C7 (counterexample): a syntactically valid but malformed `specific`
filter — `device_ids` carries a string instead of a device-id list — does
not fail closed: Python's `in` degenerates to substring search, so device
`d1` is eligible under filter `{"device_ids": "ad1b"}` even at rollout
percentage 0, although it is a member of no device-id list. -/
theorem specific_substring_eligibility :
    check_device_eligibility zeroHash "d1" "specific"
      (some (.parsed (.pdict [("device_ids", .pstr "ad1b")]))) 0 = true := by
  decide

/-- C7 (amended): in `specific` mode a missing (`NULL`) or unparseable
filter payload yields not-eligible without an exception, and when the
payload is an object carrying a `device_ids` list, eligibility is exactly
membership of the device id in that list — independent of the rollout
percentage in every case. (Only when `device_ids` is itself a string or an
object does Python containment yield substring/key semantics instead, as
the counterexample shows.) -/
theorem specific_mode_characterization :
    (∀ (hashNat : String → Nat) (d : String) (pct : Int),
        check_device_eligibility hashNat d "specific" none pct = false) ∧
    (∀ (hashNat : String → Nat) (d : String) (pct : Int),
        check_device_eligibility hashNat d "specific" (some .unparseable) pct = false) ∧
    (∀ (hashNat : String → Nat) (d : String) (pct : Int) (ids : List PyVal),
        check_device_eligibility hashNat d "specific"
          (some (.parsed (.pdict [("device_ids", .plist ids)]))) pct =
          ids.any (pyEqStr d)) :=
  ⟨fun _ _ _ => rfl, fun _ _ _ => rfl, fun _ _ _ _ => rfl⟩

/- ------------------------------------------------------------------
Claims about the Update Attempt Store operations
------------------------------------------------------------------ -/

/-- C1 (counterexample): the one-active-attempt invariant is not preserved.
Starting from a state where device `d1` has exactly one non-terminal
attempt, a second event-stream acknowledgement for `d1` leaves it with two
non-terminal (`pending`) attempts. -/
theorem one_active_attempt_not_preserved :
    countNonTerminal dbPending.device_update_status "d1" = 1 ∧
    countNonTerminal
      (handle_ota_message dbPending 1 "d1" "status" ackPayload).device_update_status
      "d1" = 2 := by
  constructor
  · rfl
  · rfl

/-- C1 (amended): neither operation checks for an existing non-terminal
attempt. An event-stream acknowledgement always increases the device's
number of non-terminal attempt rows by exactly one, and a status report
adds one exactly when the reported status is non-terminal — so a device
that already has an active attempt ends up with several (the spec's
section 9 flags this as an open question in the source). -/
theorem attempt_inserts_are_unconditional (db : Db) (now : Nat) (d : String) :
    (∀ p : OtaPayload,
        countNonTerminal
          (handle_ota_message db now d "status" p).device_update_status d =
          countNonTerminal db.device_update_status d + 1) ∧
    (∀ body : UpdateStatusBody,
        countNonTerminal
          (report_update_status db now d body).device_update_status d =
          countNonTerminal db.device_update_status d +
            (if nonTerminal body.status then 1 else 0)) := by
  constructor
  · intro p
    simp [handle_ota_message, countNonTerminal, List.filter_append, nonTerminal]
  · intro body
    cases hst : body.status <;>
      simp [report_update_status, reportRow, hst, countNonTerminal,
        List.filter_append, nonTerminal]

/-- C4 (counterexample): a status report of `downloading` for a device
whose current attempt is terminal (`success`) is not rejected: the handler
inserts the illegal status, it becomes the device's current attempt state,
and the stored attempt table changes. No `InvalidTransition` exists in the
code. -/
theorem illegal_transition_applied :
    (latestAttempt dbSuccess.device_update_status "d1").map (fun a => a.status) =
      some .success ∧
    (latestAttempt
        (report_update_status dbSuccess 1 "d1" bodyDownloading).device_update_status
        "d1").map (fun a => a.status) = some .downloading ∧
    (report_update_status dbSuccess 1 "d1" bodyDownloading).device_update_status ≠
      dbSuccess.device_update_status := by
  refine ⟨rfl, rfl, ?_⟩
  decide

/-- C4 (amended): the status-report endpoint performs no transition
validation: whatever enumerated status is reported, it never fails, always
appends a fresh row carrying exactly the reported status (prior rows
untouched), and — the clock being monotone — that row becomes the device's
current attempt. -/
theorem report_applies_any_status (db : Db) (now : Nat) (d : String)
    (body : UpdateStatusBody)
    (hle : ∀ r ∈ db.device_update_status, r.reported_at ≤ now) :
    ∃ row : AttemptRow,
      (report_update_status db now d body).device_update_status =
        db.device_update_status ++ [row] ∧
      row.device_id = d ∧
      row.firmware_version = body.firmware_version ∧
      row.status = body.status ∧
      latestAttempt
        (report_update_status db now d body).device_update_status d = some row := by
  have hatt : (report_update_status db now d body).device_update_status =
      db.device_update_status ++ [reportRow db now d body] := by
    simp only [report_update_status]
    split
    · rfl
    · split <;> rfl
  refine ⟨reportRow db now d body, hatt, rfl, rfl, rfl, ?_⟩
  rw [hatt]
  unfold latestAttempt
  rw [List.filter_append]
  have hone : List.filter (fun r => r.device_id == d) [reportRow db now d body] =
      [reportRow db now d body] := by
    simp [reportRow]
  rw [hone]
  apply latestBy_append_last
  intro y hy
  exact hle y (List.mem_filter.mp hy).1

/-- Witness for C4's amended theorem on the empty attempt table. -/
theorem report_applies_any_status_witness :
    ∃ row : AttemptRow,
      (report_update_status emptyDb 0 "d1" bodyDownloading).device_update_status =
        emptyDb.device_update_status ++ [row] ∧
      row.device_id = "d1" ∧
      row.firmware_version = bodyDownloading.firmware_version ∧
      row.status = bodyDownloading.status ∧
      latestAttempt
        (report_update_status emptyDb 0 "d1" bodyDownloading).device_update_status
        "d1" = some row :=
  report_applies_any_status emptyDb 0 "d1" bodyDownloading (by simp [emptyDb])

/-- C8 (counterexample): the progress-phase mapping is by string equality,
not containment: the labels `install` and `verify` (which contain the
words the claim keys on) both map to `downloading`, where the claim
requires `installing` and `downloaded` respectively. -/
theorem progress_phase_word_mapping :
    (latestAttempt
        (handle_ota_message dbPending 1 "d1" "progress" installPayload).device_update_status
        "d1").map (fun a => a.status) = some .downloading ∧
    (latestAttempt
        (handle_ota_message dbPending 1 "d1" "progress" verifyPayload).device_update_status
        "d1").map (fun a => a.status) = some .downloading := by
  refine ⟨?_, ?_⟩ <;> decide

/-- C8 (amended): a progress message updates the device's current (latest
reported) attempt row in place: the stored status is `installing` when the
lower-cased phase label equals `installing`, `downloaded` when it equals
`verifying`, and `downloading` otherwise; the stored progress percentage
is the message's `percent` field (0 when absent); all other rows are
unchanged. -/
theorem progress_update_semantics (db : Db) (now : Nat) (d : String)
    (p : OtaPayload) (a : AttemptRow)
    (ha : latestAttempt db.device_update_status d = some a) :
    (handle_ota_message db now d "progress" p).device_update_status =
      db.device_update_status.map (fun r =>
        if r.id == a.id then
          { r with
              status :=
                if asciiLower (p.state.getD "") == "installing" then UpdStatus.installing
                else if asciiLower (p.state.getD "") == "verifying" then UpdStatus.downloaded
                else UpdStatus.downloading
              progress_percent := some (p.percent.getD 0)
              reported_at := now }
        else r) := by
  simp only [handle_ota_message, updateLatest, ha]
  rfl

/-- Witness for C8's amended theorem: an `install`-phase progress message
against the one-pending-attempt database. -/
theorem progress_update_semantics_witness :
    (handle_ota_message dbPending 1 "d1" "progress" installPayload).device_update_status =
      dbPending.device_update_status.map (fun r =>
        if r.id == pendingRow.id then
          { r with
              status :=
                if asciiLower (installPayload.state.getD "") == "installing" then
                  UpdStatus.installing
                else if asciiLower (installPayload.state.getD "") == "verifying" then
                  UpdStatus.downloaded
                else UpdStatus.downloading
              progress_percent := some (installPayload.percent.getD 0)
              reported_at := 1 }
        else r) :=
  progress_update_semantics dbPending 1 "d1" installPayload pendingRow rfl

/-- C10: an event-stream progress or result message for a device with no
attempt rows completes without error and leaves the attempt table
unchanged (the update matches zero rows); a result message still appends
its `update_completed`/`update_failed` audit event. -/
theorem orphan_ota_messages_are_noops (db : Db) (now : Nat) (d : String)
    (p : OtaPayload)
    (hno : ∀ r ∈ db.device_update_status, r.device_id ≠ d) :
    handle_ota_message db now d "progress" p = db ∧
    (handle_ota_message db now d "result" p).device_update_status =
      db.device_update_status ∧
    (handle_ota_message db now d "result" p).ota_events =
      db.ota_events ++
        [{ event_type :=
             if p.success.getD false then "update_completed" else "update_failed"
           device_id := some d
           firmware_version := some (p.target_version.getD (p.version.getD "unknown"))
           event_data := some (.mqttPayload p) }] := by
  have hfil : List.filter (fun r => r.device_id == d) db.device_update_status = [] := by
    rw [List.filter_eq_nil_iff]
    intro r hr
    simp [hno r hr]
  have hlat : latestAttempt db.device_update_status d = none := by
    unfold latestAttempt
    rw [hfil]
    rfl
  have hupd : ∀ f, updateLatest db.device_update_status d f = db.device_update_status := by
    intro f
    unfold updateLatest
    rw [hlat]
  refine ⟨?_, ?_, ?_⟩ <;> (simp only [handle_ota_message, hupd]; rfl)

/-- Witness for C10 on a database whose only attempt belongs to another
device. -/
theorem orphan_ota_messages_are_noops_witness :
    handle_ota_message dbOther 1 "d1" "progress" failPayload = dbOther ∧
    (handle_ota_message dbOther 1 "d1" "result" failPayload).device_update_status =
      dbOther.device_update_status ∧
    (handle_ota_message dbOther 1 "d1" "result" failPayload).ota_events =
      dbOther.ota_events ++
        [{ event_type :=
             if failPayload.success.getD false then "update_completed" else "update_failed"
           device_id := some "d1"
           firmware_version :=
             some (failPayload.target_version.getD (failPayload.version.getD "unknown"))
           event_data := some (.mqttPayload failPayload) }] :=
  orphan_ota_messages_are_noops dbOther 1 "d1" failPayload (by decide)

/- ------------------------------------------------------------------
Claims about the firmware-check endpoint and the admin boundary
------------------------------------------------------------------ -/

theorem upsertDevice_firmware_releases (db : Db) (now : Nat) (d m cur : String) :
    (upsertDevice db now d m cur).firmware_releases = db.firmware_releases := by
  unfold upsertDevice
  split <;> rfl

theorem upsertDevice_rollout_configurations (db : Db) (now : Nat) (d m cur : String) :
    (upsertDevice db now d m cur).rollout_configurations = db.rollout_configurations := by
  unfold upsertDevice
  split <;> rfl

theorem upsertDevice_device_update_status (db : Db) (now : Nat) (d m cur : String) :
    (upsertDevice db now d m cur).device_update_status = db.device_update_status := by
  unfold upsertDevice
  split <;> rfl

theorem upsertDevice_ota_events (db : Db) (now : Nat) (d m cur : String) :
    (upsertDevice db now d m cur).ota_events = db.ota_events := by
  unfold upsertDevice
  split <;> rfl

theorem latestRelease_upsertDevice (db : Db) (now : Nat) (d m cur m2 : String) :
    latestRelease (upsertDevice db now d m cur) m2 = latestRelease db m2 := by
  unfold latestRelease
  rw [upsertDevice_firmware_releases]

theorem latestActiveRollout_upsertDevice (db : Db) (now : Nat) (d m cur v m2 : String) :
    latestActiveRollout (upsertDevice db now d m cur) v m2 = latestActiveRollout db v m2 := by
  unfold latestActiveRollout
  rw [upsertDevice_rollout_configurations]

/-- C5 (counterexample): in exactly the claimed scenario — catalog latest
`1.1.0` differs from the reported `1.0.0` and the most recent active
rollout is mode `all` at 100% — the check answers `update_available=true`,
yet afterwards the attempt store contains no row at all: the endpoint never
creates a `pending` UpdateAttempt. -/
theorem check_creates_no_attempt :
    latestRelease dbCatalog "esp32" = some relEsp ∧
    relEsp.version ≠ "1.0.0" ∧
    latestActiveRollout dbCatalog "1.1.0" "esp32" = some roAll ∧
    roAll.target_type = "all" ∧
    roAll.rollout_percentage = 100 ∧
    (check_firmware_update zeroHash dbCatalog 5 "d1" "esp32" "1.0.0").1.update_available =
      true ∧
    (check_firmware_update zeroHash dbCatalog 5 "d1" "esp32" "1.0.0").2.device_update_status =
      [] := by
  refine ⟨rfl, by decide, rfl, rfl, rfl, rfl, rfl⟩

/-- C5 (amended): when the catalog's latest version for the model differs
from the reported one and the most recent active rollout for it is mode
`all` at percentage 100, the check responds `update_available=true` with
that latest version and appends an `update_started` OtaEvent for (device,
latest version) — but it leaves the attempt store untouched (no `pending`
attempt is created; attempt rows only appear via the status-report or
acknowledgement paths). -/
theorem check_offers_update_and_logs_event (hashNat : String → Nat) (db : Db)
    (now : Nat) (d m cur : String) (rel : ReleaseRow) (ro : RolloutRow)
    (hrel : latestRelease db m = some rel)
    (hne : rel.version ≠ cur)
    (hro : latestActiveRollout db rel.version m = some ro)
    (hall : ro.target_type = "all")
    (hpct : ro.rollout_percentage = 100) :
    (check_firmware_update hashNat db now d m cur).1.update_available = true ∧
    (check_firmware_update hashNat db now d m cur).1.latest_version = some rel.version ∧
    (check_firmware_update hashNat db now d m cur).2.device_update_status =
      db.device_update_status ∧
    (check_firmware_update hashNat db now d m cur).2.ota_events =
      db.ota_events ++
        [{ event_type := "update_started"
           device_id := some d
           firmware_version := some rel.version
           event_data := some (.fromVersion cur) }] := by
  have hbeq : (rel.version == cur) = false := by
    simp [hne]
  have helig : check_device_eligibility hashNat d ro.target_type ro.target_filter
      ro.rollout_percentage = true := by
    rw [hall, hpct]
    rfl
  simp [check_firmware_update, latestRelease_upsertDevice, hrel,
    latestActiveRollout_upsertDevice, hro, hbeq, helig,
    upsertDevice_device_update_status, upsertDevice_ota_events]

/-- Witness for C5's amended theorem at the concrete scenario database. -/
theorem check_offers_update_and_logs_event_witness :
    (check_firmware_update zeroHash dbCatalog 7 "d2" "esp32" "1.0.0").1.update_available =
      true ∧
    (check_firmware_update zeroHash dbCatalog 7 "d2" "esp32" "1.0.0").1.latest_version =
      some relEsp.version ∧
    (check_firmware_update zeroHash dbCatalog 7 "d2" "esp32" "1.0.0").2.device_update_status =
      dbCatalog.device_update_status ∧
    (check_firmware_update zeroHash dbCatalog 7 "d2" "esp32" "1.0.0").2.ota_events =
      dbCatalog.ota_events ++
        [{ event_type := "update_started"
           device_id := some "d2"
           firmware_version := some relEsp.version
           event_data := some (.fromVersion "1.0.0") }] :=
  check_offers_update_and_logs_event zeroHash dbCatalog 7 "d2" "esp32" "1.0.0"
    relEsp roAll rfl (by decide) rfl rfl rfl

/-- C9 (counterexample): the administrative listing endpoints (firmware
releases, devices, attempt status) declare no authentication dependency:
with an API key configured (`secret`) and no `X-API-Key` header supplied,
each of them performs its read and answers normally instead of rejecting
with an authentication error. -/
theorem listing_endpoints_skip_authentication :
    list_firmware_releases (some "secret") none dbCatalog none 10 = .ok [relEsp] ∧
    list_devices (some "secret") none dbCatalog none 10 = .ok [] ∧
    get_update_status (some "secret") none dbPending none none 10 = .ok [pendingRow] :=
  ⟨rfl, rfl, rfl⟩

/-- C9 (amended): only the two administrative mutations — firmware upload
and rollout creation — verify the shared secret, and they reject a request
whose header does not match the configured (non-empty) key with an
authentication error before any storage write: the failing call returns no
state at all, so storage is untouched. The listing endpoints perform no
authentication check (see the counterexample), and when no key is
configured nothing is checked. -/
theorem admin_mutations_reject_bad_key (key x : Option String)
    (hkey : apiKeyTruthy key = true) (hx : (x == key) = false) :
    (∀ db now version device_model min_version changelog release_notes signedFlag
        file_size checksum,
        upload_firmware key x db now version device_model min_version changelog
          release_notes signedFlag file_size checksum = .error ()) ∧
    (∀ db now rc, create_rollout key x db now rc = .error ()) := by
  have hv : verify_api_key key x = false := by
    simp [verify_api_key, bne, hkey, hx]
  constructor
  · intro db now version device_model min_version changelog release_notes sf fs cs
    simp [upload_firmware, hv]
  · intro db now rc
    simp [create_rollout, hv]

/-- Witness for C9's amended theorem: key `secret` configured, header
absent. -/
theorem admin_mutations_reject_bad_key_witness :
    (∀ db now version device_model min_version changelog release_notes signedFlag
        file_size checksum,
        upload_firmware (some "secret") none db now version device_model min_version
          changelog release_notes signedFlag file_size checksum = .error ()) ∧
    (∀ db now rc, create_rollout (some "secret") none db now rc = .error ()) :=
  admin_mutations_reject_bad_key (some "secret") none (by decide) (by decide)

end Paku
